import Mathlib

/-!
Verification development for the PoeProxyAPI repository.

Shallow embedding conventions:
* Python `str` values are embedded as `List Char`; a literal is written
  `("...".data)`.
* Python `time.time()` is embedded by passing the current clock reading
  `now : Nat` (seconds) explicitly to every operation that reads the clock.
  The several `time.time()` calls inside one synchronous method body are
  identified with the single `now` of that call.
* Python exceptions are embedded as a `PyError` record carrying the exception
  class name and the `str(...)` rendering of the exception; fallible code
  returns `Except PyError _`.
* `.lower()` is embedded for ASCII text (all registry fragments and inputs in
  the claims are ASCII).
-/

/-- ASCII lowering of one character, as Python `str.lower` acts on ASCII. -/
def lowerChar (c : Char) : Char :=
  if 'A' ≤ c ∧ c ≤ 'Z' then Char.ofNat (c.toNat + 32) else c

/-- `s.lower()` for ASCII text. -/
def lower (s : List Char) : List Char := s.map lowerChar

/-- Python `hay.find(pat, start)`: index of the leftmost occurrence of `pat`
in `hay` at an index `≥ start`, or `none` (Python returns `-1`). -/
def strFindFrom (hay pat : List Char) (start : Nat) : Option Nat :=
  (List.range (hay.length + 1)).find? fun i =>
    decide (start ≤ i) && pat.isPrefixOf (hay.drop i)

/-- Python `hay.find(pat)`. -/
def strFind (hay pat : List Char) : Option Nat := strFindFrom hay pat 0

/-- Python `pat in hay` (substring containment). -/
def isSubstring (pat hay : List Char) : Bool := (strFind hay pat).isSome

/-- Python whitespace recognised by `str.strip` (ASCII portion). -/
def isPySpace (c : Char) : Bool :=
  c = ' ' || c = '\t' || c = '\n' || c = '\x0d' || c = '\x0b' || c = '\x0c'

/-- Python `s.strip()`. -/
def pyStrip (s : List Char) : List Char :=
  ((s.dropWhile isPySpace).reverse.dropWhile isPySpace).reverse

/-- An embedded Python exception: class name and `str(e)`. -/
structure PyError where
  ty : List Char
  msg : List Char
deriving DecidableEq

deriving instance DecidableEq for Except

/-- The `<thinking>` opening tag used by `poe_client/claude_compat.py`. -/
def thinkOpen : List Char := "<thinking>".data

/-- The `</thinking>` closing tag used by `poe_client/claude_compat.py`. -/
def thinkClose : List Char := "</thinking>".data

/-- `poe_client/claude_compat.process_claude_response`: if the text contains
both `<thinking>` and `</thinking>`, the slice from the first opening tag to
the end of the first closing tag is removed; otherwise the text is returned
unchanged. -/
def process_claude_response (response : List Char) : List Char :=
  match strFind response thinkOpen, strFind response thinkClose with
  | some s, some c =>
      let e := c + thinkClose.length
      response.take s ++ response.drop e
  | _, _ => response

/-- The fixed registry of `poe_client/claude_compat.is_claude_model`. -/
def CLAUDE_MODELS_V1 : List (List Char) :=
  [("Claude-3-Opus-200k".data), ("Claude-3-Sonnet-7k".data),
   ("Claude-3-Haiku-3k".data), ("Claude-2-100k".data)]

/-- `poe_client/claude_compat.is_claude_model`: case-insensitive substring
match against the registry, in either direction. -/
def is_claude_model (model_name : List Char) : Bool :=
  CLAUDE_MODELS_V1.any fun m =>
    isSubstring (lower m) (lower model_name) || isSubstring (lower model_name) (lower m)

/-- The fixed registry `CLAUDE_MODELS` of `claude_compat_v2.py`. -/
def CLAUDE_MODELS : List (List Char) :=
  [("claude".data), ("claude-3".data), ("claude-3-opus".data),
   ("claude-3-sonnet".data), ("claude-3-haiku".data),
   ("claude-3.5-sonnet".data), ("claude-3.7-sonnet".data)]

/-- `claude_compat_v2.is_claude_model`: lowers the bot name and tests only
whether some registry fragment is contained in it. -/
def is_claude_model_v2 (model_name : List Char) : Bool :=
  CLAUDE_MODELS.any fun m => isSubstring m (lower model_name)

/-- Definition following the spec's words (for comparison with the code):
"case-insensitive substring match of the bot identifier against a fixed
registry of vendor family name fragments, matched in either direction
(registry fragment contains bot name OR bot name contains registry
fragment)". -/
def spec_either_direction_match (registry : List (List Char)) (name : List Char) : Bool :=
  registry.any fun m =>
    isSubstring (lower m) (lower name) || isSubstring (lower name) (lower m)

/-- `true` when the text still contains a complete thinking segment, i.e. the
guard of `process_claude_response` fires. -/
def hasThinkingSegment (t : List Char) : Bool :=
  isSubstring thinkOpen t && isSubstring thinkClose t

/-- The `\x7b\x7bthinking\x7d\x7d` placeholder of `claude_compat_v2.py`. -/
def thinkingPlaceholder : List Char := "\x7b\x7bthinking\x7d\x7d".data

/-- The `DEFAULT_THINKING` template of `claude_compat_v2.py`. -/
def defaultTemplate : List Char := thinkingPlaceholder

/-- A per-request thinking configuration dictionary; each field is `none` when
the corresponding key is absent from the Python dict. -/
structure ThinkingDict where
  enabled : Option Bool := none
  template : Option (List Char) := none
  include_in_response : Option Bool := none
deriving DecidableEq

/-- Split a template at the first occurrence of the placeholder, giving the
literal text before and after it (the `pre(.*?)suf` shape that
`template.replace` produces).  `none` when the template has no placeholder. -/
def splitTemplate (tmpl : List Char) : Option (List Char × List Char) :=
  match strFind tmpl thinkingPlaceholder with
  | none => none
  | some i => some (tmpl.take i, tmpl.drop (i + thinkingPlaceholder.length))

/-- `re.search` of the DOTALL lazy pattern `pre(.*?)suf` (template text taken
literally): the leftmost index `i` where `pre` matches together with the
earliest following index `j ≥ i + |pre|` where `suf` matches.  The group is
`hay[i+|pre| : j]` and the match ends at `j + |suf|`. -/
def lazySearchFrom (hay pre suf : List Char) (p : Nat) : Option (Nat × Nat) :=
  match strFindFrom hay pre p with
  | none => none
  | some i =>
      match strFindFrom hay suf (i + pre.length) with
      | none => none
      | some j => some (i, j)

/-- One step list of `re.sub(pattern, "", hay)` for the lazy literal pattern:
Python copies the text between matches, removes each match, and after a
zero-width match copies one character and advances. -/
def subAllFrom (hay pre suf : List Char) : Nat → Nat → List Char
  | p, 0 => hay.drop p
  | p, fuel + 1 =>
      match lazySearchFrom hay pre suf p with
      | none => hay.drop p
      | some (i, j) =>
          let e := j + suf.length
          if e > i then
            (hay.drop p).take (i - p) ++ subAllFrom hay pre suf e fuel
          else
            (hay.drop p).take (i - p) ++ (hay.drop i).take 1 ++
              subAllFrom hay pre suf (i + 1) fuel

/-- `re.sub(pattern, "", hay)` for the lazy literal pattern. -/
def subAll (hay pre suf : List Char) : List Char :=
  subAllFrom hay pre suf 0 (hay.length + 2)

/-- Result of `claude_compat_v2.extract_thinking_from_response`. -/
structure ExtractOut where
  thinking : List Char
  response : List Char
deriving DecidableEq

/-- `claude_compat_v2.extract_thinking_from_response`.  The regex built from
the template is modelled for templates whose literal parts contain no regex
metacharacters and which hold at most one placeholder (the default template
and every configuration exercised by the claims are of this shape).  A
template without the placeholder yields a group-less pattern, so a successful
search makes `match.group(1)` raise `IndexError`. -/
def extract_thinking_from_response (response : List Char)
    (thinking : Option ThinkingDict) : Except PyError ExtractOut :=
  match thinking with
  | none => .ok { thinking := [], response := response }
  | some cfg =>
      if cfg.enabled.getD true = false then
        .ok { thinking := [], response := response }
      else
        let tmpl := cfg.template.getD defaultTemplate
        let incl := cfg.include_in_response.getD false
        match splitTemplate tmpl with
        | some (pre, suf) =>
            match lazySearchFrom response pre suf 0 with
            | some (i, j) =>
                let thinkingText := pyStrip ((response.drop (i + pre.length)).take (j - (i + pre.length)))
                let cleaned := if incl then response else pyStrip (subAll response pre suf)
                .ok { thinking := thinkingText, response := cleaned }
            | none => .ok { thinking := [], response := response }
        | none =>
            match strFind response tmpl with
            | some _ => .error { ty := ("IndexError".data), msg := ("no such group".data) }
            | none => .ok { thinking := [], response := response }

/-- The structured error classification returned by
`poe_client/claude_compat.handle_claude_error`. -/
structure ErrInfo where
  error : List Char
  message : List Char
deriving DecidableEq

/-- `poe_client/claude_compat.handle_claude_error`: buckets an exception by
keyword search over the lowered message. -/
def handle_claude_error_v1 (e : PyError) : ErrInfo :=
  let m := lower e.msg
  if isSubstring ("thinking protocol".data) m then
    { error := ("claude_thinking_protocol_error".data),
      message := ("Error with Claude thinking protocol. Try again without the thinking parameter.".data) }
  else if isSubstring ("context window".data) m || isSubstring ("token limit".data) m then
    { error := ("claude_context_window_error".data),
      message := ("The input exceeds Claude's context window. Try reducing the input size or using a model with a larger context window.".data) }
  else
    { error := ("claude_error".data),
      message := ("Error with Claude: ".data) ++ e.msg }

/-- The keyword signals of `claude_compat_v2.handle_claude_error` that mark a
thinking-protocol-related failure. -/
def thinkingRelatedErrors : List (List Char) :=
  [("thinking".data), ("protocol".data), ("template".data),
   ("format".data), ("invalid request".data), ("bad request".data)]

/-- `is_thinking_error` of `claude_compat_v2.handle_claude_error`: keyword
search over the lowered error text. -/
def isThinkingError (e : PyError) : Bool :=
  thinkingRelatedErrors.any fun k => isSubstring k (lower e.msg)

/-- The dictionary a fallback handler resolves to; `text` is `none` when the
`"text"` key is absent (`fallback_response.get("text", "")`). -/
structure FallbackResp where
  text : Option (List Char) := none
deriving DecidableEq

/-- The structured result dictionary of `claude_compat_v2.handle_claude_error`;
`fallback_failed = none` models the key being absent. -/
structure HandleResult where
  text : List Char
  error : Bool
  error_message : List Char
  fallback_used : Bool
  fallback_failed : Option Bool := none
deriving DecidableEq

/-- `claude_compat_v2.handle_claude_error`.  The awaited fallback callable is
embedded by the outcome it produces when invoked: `some (.ok r)` a normal
return, `some (.error fe)` a raise, `none` no handler supplied.  The Python
function catches every fallback exception and always returns a dictionary;
the embedding is correspondingly total. -/
def handle_claude_error (e : PyError)
    (fallback_handler : Option (Except PyError FallbackResp))
    (model_name : List Char) : HandleResult :=
  let errorStr := lower e.msg
  if isThinkingError e && fallback_handler.isSome && is_claude_model_v2 model_name then
    match fallback_handler with
    | some (.ok resp) =>
        { text := resp.text.getD [], error := true,
          error_message := ("Thinking protocol error: ".data) ++ errorStr ++
            (". Fallback response provided.".data),
          fallback_used := true }
    | some (.error fe) =>
        { text := [], error := true,
          error_message := ("Thinking protocol error: ".data) ++ errorStr ++
            (". Fallback also failed: ".data) ++ fe.msg,
          fallback_used := true, fallback_failed := some true }
    | none =>
        { text := [], error := true,
          error_message := ("Error: ".data) ++ e.msg, fallback_used := false }
  else
    { text := [], error := true,
      error_message := ("Error: ".data) ++ e.msg, fallback_used := false }

/-- A turn as stored and sent by the proxy (`fastapi_poe.ProtocolMessage`). -/
structure PMsg where
  role : List Char
  content : List Char
deriving DecidableEq

/-- A freshly built user turn. -/
def pmUser (content : List Char) : PMsg := { role := ("user".data), content := content }

/-- A freshly built model ("bot") turn. -/
def pmBot (content : List Char) : PMsg := { role := ("bot".data), content := content }

/-- The external model stream (`fp.get_bot_response`): either a finite list of
chunk texts, or some chunks followed by an exception raised mid-stream. -/
inductive StreamOutcome where
  | ok (chunks : List (List Char))
  | err (chunks : List (List Char)) (e : PyError)

/-- The success dictionary returned by `PoeClient.query_model`. -/
structure QueryOut where
  text : List Char
  bot : List Char
  error : Option (List Char) := none
  error_message : Option (List Char) := none
deriving DecidableEq

/-- What a `query_model` call leaves behind: the returned-or-raised result and
the caller's `messages` list as it stands after the call (the Python code
appends to that list in place, so the embedding returns its final value
explicitly). -/
structure QueryRet where
  result : Except PyError QueryOut
  messagesAfter : List PMsg

/-- Accumulation of the streamed chunks by `PoeClient.query_model`, applying
`process_claude_response` per chunk exactly when the bot is Claude-classified
and compatibility mode is on. -/
def processChunks (isClaude compat : Bool) (chunks : List (List Char)) : List Char :=
  chunks.foldl (fun acc c => acc ++ (if isClaude && compat then process_claude_response c else c)) []

/-- `PoeClient.query_model`.  `compat` is `self.claude_compatible`; `thinking`
only feeds the unused local `formatted_thinking`, so it does not influence the
result; the stream handler only republishes chunks and is omitted.  The outer
`except Exception` wraps every escaping exception into
`PoeApiError("Error querying Poe model: " + str(e))`. -/
def query_model (bot_name prompt : List Char) (messages : List PMsg)
    (compat : Bool) (thinking : Option ThinkingDict)
    (outcome : StreamOutcome) : QueryRet :=
  let msgs := messages ++ [pmUser prompt]
  let isClaude := is_claude_model bot_name
  match outcome with
  | .ok chunks =>
      let full := processChunks isClaude compat chunks
      let final := if isClaude && compat then process_claude_response full else full
      { result := .ok { text := final, bot := bot_name }, messagesAfter := msgs }
  | .err chunks e =>
      let full := processChunks isClaude compat chunks
      if isClaude && compat then
        let info := handle_claude_error_v1 e
        if full.isEmpty then
          { result := .error { ty := ("PoeApiError".data),
                               msg := ("Error querying Poe model: ".data) ++ info.message },
            messagesAfter := msgs }
        else
          { result := .ok { text := full, bot := bot_name,
                            error := some info.error, error_message := some info.message },
            messagesAfter := msgs }
      else
        { result := .error { ty := ("PoeApiError".data),
                             msg := ("Error querying Poe model: ".data) ++ e.msg },
          messagesAfter := msgs }

/-- A file on disk as the proxy observes it: its UTF-8 decoding when the bytes
decode (`none` models a `UnicodeDecodeError`), its base name, and its size in
bytes. -/
structure FileData where
  decoded : Option (List Char)
  basename : List Char
  size_bytes : Nat
deriving DecidableEq

/-- What a `query_model_with_file` call leaves behind; `externalCalled` records
whether the external model call was reached. -/
structure QueryFileRet where
  result : Except PyError QueryOut
  messagesAfter : List PMsg
  externalCalled : Bool

/-- `PoeClient.query_model_with_file`.  The filesystem is the map `fs`.  The
only validation performed is `os.path.exists`; no size bound is consulted.  A
`FileHandlingError` passes the dedicated `except FileHandlingError: raise`
clause unchanged, while any other exception is wrapped into
`PoeApiError("Error querying Poe model with file: " + str(e))`. -/
def query_model_with_file (bot_name prompt file_path : List Char)
    (messages : List PMsg) (compat : Bool) (thinking : Option ThinkingDict)
    (fs : List Char → Option FileData) (outcome : StreamOutcome) : QueryFileRet :=
  match fs file_path with
  | none =>
      { result := .error { ty := ("FileHandlingError".data),
                           msg := ("File not found: ".data) ++ file_path },
        messagesAfter := messages, externalCalled := false }
  | some fd =>
      let combined :=
        match fd.decoded with
        | some txt => prompt ++ ("\n\nFile content:\n".data) ++ txt
        | none => prompt ++ ("\n\n[File attached: ".data) ++ fd.basename ++ ("]".data)
      let isClaude := is_claude_model bot_name
      let msgs := messages ++ [pmUser combined]
      match outcome with
      | .ok chunks =>
          let full := processChunks isClaude compat chunks
          let final := if isClaude && compat then process_claude_response full else full
          { result := .ok { text := final, bot := bot_name },
            messagesAfter := msgs, externalCalled := true }
      | .err chunks e =>
          let full := processChunks isClaude compat chunks
          if isClaude && compat then
            let info := handle_claude_error_v1 e
            if full.isEmpty then
              { result := .error { ty := ("PoeApiError".data),
                                   msg := ("Error querying Poe model with file: ".data) ++ info.message },
                messagesAfter := msgs, externalCalled := true }
            else
              { result := .ok { text := full, bot := bot_name,
                                error := some info.error, error_message := some info.message },
                messagesAfter := msgs, externalCalled := true }
          else
            { result := .error { ty := ("PoeApiError".data),
                                 msg := ("Error querying Poe model with file: ".data) ++ e.msg },
              messagesAfter := msgs, externalCalled := true }

/-- `poe_client/file_utils.validate_file`: existence check raising
`FileNotFoundError`, then size check raising `ValueError` (size formatting of
the Python message is omitted; the MIME lookup is pure metadata and is not
modelled).  `size_mb > max_size_mb` over the float division by `1024 * 1024`
is the integer comparison `size_bytes > max_size_mb * 1024 * 1024`. -/
def validate_file (fs : List Char → Option FileData) (file_path : List Char)
    (max_size_mb : Nat) : Except PyError (List Char) :=
  match fs file_path with
  | none => .error { ty := ("FileNotFoundError".data), msg := ("文件不存在: ".data) ++ file_path }
  | some fd =>
      if fd.size_bytes > max_size_mb * 1024 * 1024 then
        .error { ty := ("ValueError".data), msg := ("文件过大".data) }
      else
        .ok file_path

/-!
Session store (`poe_client/session.py`, class `SessionManager`).

Python stores each session as a dict holding a mutable list object
`"messages"`.  The embedding separates the two levels so the object identity
of that list is observable: `sessions` maps a session id to its metadata and
to a reference `msgs` into a `heap` of message lists.  Session ids
(`uuid.uuid4()` strings) are opaque tokens, embedded as `Nat`. -/

/-- The per-session record of `SessionManager.sessions`: the reference to its
messages list object, and its two timestamps. -/
structure SessionData where
  msgs : Nat
  created_at : Nat
  last_accessed : Nat
deriving DecidableEq

/-- The state of a `SessionManager`. -/
structure SMState where
  sessions : Nat → Option SessionData
  heap : Nat → Option (List PMsg)
  expiry_minutes : Nat

/-- Pointwise update of a partial map. -/
def fupd {α : Type} (f : Nat → Option α) (k : Nat) (v : Option α) : Nat → Option α :=
  fun n => if n = k then v else f n

/-- `SessionManager._is_session_expired`: absent ids count as expired;
otherwise the session is expired when `now > last_accessed + expiry_minutes * 60`. -/
def is_session_expired (st : SMState) (session_id : Nat) (now : Nat) : Bool :=
  match st.sessions session_id with
  | none => true
  | some d => decide (now > d.last_accessed + st.expiry_minutes * 60)

/-- `SessionManager.delete_session`. -/
def delete_session (st : SMState) (session_id : Nat) : Bool × SMState :=
  match st.sessions session_id with
  | none => (false, st)
  | some _ => (true, { st with sessions := fupd st.sessions session_id none })

/-- `SessionManager.get_session`, statement for statement: absent id returns
`None`; otherwise `last_accessed` is set to the current time FIRST, then the
expiry check runs (against the just-refreshed timestamp), deleting and
returning `None` when it fires, and otherwise the stored session is
returned. -/
def get_session (st : SMState) (session_id : Nat) (now : Nat) :
    Option SessionData × SMState :=
  match st.sessions session_id with
  | none => (none, st)
  | some d =>
      let d1 := { d with last_accessed := now }
      let st1 := { st with sessions := fupd st.sessions session_id (some d1) }
      if is_session_expired st1 session_id now then
        (none, (delete_session st1 session_id).2)
      else
        (some d1, st1)

/-- `SessionManager.update_session`: fetches via `get_session`, then appends
the user turn and the bot turn to the session's messages list object and
touches the access time. -/
def update_session (st : SMState) (session_id : Nat)
    (user_message bot_message : List Char) (now : Nat) : Bool × SMState :=
  match get_session st session_id now with
  | (none, st1) => (false, st1)
  | (some d, st1) =>
      let old := (st1.heap d.msgs).getD []
      let st2 := { st1 with
        heap := fupd st1.heap d.msgs (some (old ++ [pmUser user_message, pmBot bot_message])) }
      let st3 := { st2 with
        sessions := fupd st2.sessions session_id (some { d with last_accessed := now }) }
      (true, st3)

/-- The in-place role normalisation of `SessionManager.get_messages`: a legacy
`"assistant"` role becomes the canonical `"bot"` role. -/
def normalizeRole (m : PMsg) : PMsg :=
  if m.role = ("assistant".data) then { m with role := ("bot".data) } else m

/-- `SessionManager.get_messages`: absent session yields a fresh empty list
(`none` here); otherwise every stored message object is normalised in place
and the session's own messages list object (its reference) is returned. -/
def get_messages (st : SMState) (session_id : Nat) (now : Nat) :
    Option Nat × SMState :=
  match get_session st session_id now with
  | (none, st1) => (none, st1)
  | (some d, st1) =>
      let old := (st1.heap d.msgs).getD []
      let st2 := { st1 with heap := fupd st1.heap d.msgs (some (old.map normalizeRole)) }
      (some d.msgs, st2)

/-- The value of a list returned by `get_messages`: a fresh `[]` for an absent
session, else the current contents of the referenced list object. -/
def readMessages (st : SMState) : Option Nat → List PMsg
  | none => []
  | some r => (st.heap r).getD []

/-- The message history the store itself holds for an id (empty when the id is
absent). -/
def storedMessages (st : SMState) (session_id : Nat) : List PMsg :=
  match st.sessions session_id with
  | none => []
  | some d => (st.heap d.msgs).getD []

/-- Concatenation of the streamed chunks with no per-chunk processing. -/
def concatChunks (chunks : List (List Char)) : List Char :=
  chunks.foldl (fun acc c => acc ++ c) []

/-- `true` when the request carries no thinking configuration or one whose
`enabled` entry is `False` (`thinking.get("enabled", True) is False`). -/
def thinkingDisabled : Option ThinkingDict → Bool
  | none => true
  | some c => !(c.enabled.getD true)

lemma fupd_same {α : Type} (f : Nat → Option α) (k : Nat) (v : Option α) :
    fupd f k v k = v := by
  unfold fupd; simp

lemma fupd_fupd_same {α : Type} (f : Nat → Option α) (k : Nat) (v w : Option α) :
    fupd (fupd f k v) k w = fupd f k w := by
  funext n; unfold fupd; by_cases h : n = k <;> simp [h]

lemma processChunks_off (isClaude compat : Bool) (chunks : List (List Char))
    (h : (isClaude && compat) = false) :
    processChunks isClaude compat chunks = concatChunks chunks := by
  unfold processChunks concatChunks
  simp [h]

lemma process_eq_self_of_no_segment (t : List Char)
    (h : hasThinkingSegment t = false) : process_claude_response t = t := by
  unfold process_claude_response
  cases hO : strFind t thinkOpen with
  | none =>
      cases hC : strFind t thinkClose with
      | none => rfl
      | some c => rfl
  | some s =>
      cases hC : strFind t thinkClose with
      | none => rfl
      | some c =>
          exfalso
          have h1 : isSubstring thinkOpen t = true := by
            unfold isSubstring; rw [hO]; rfl
          have h2 : isSubstring thinkClose t = true := by
            unfold isSubstring; rw [hC]; rfl
          unfold hasThinkingSegment at h
          rw [h1, h2] at h
          exact absurd h (by decide)

lemma normalizeRole_role_ne (x : PMsg) :
    (normalizeRole x).role ≠ ("assistant".data) := by
  unfold normalizeRole
  by_cases h : x.role = ("assistant".data) <;> simp [h]

lemma normalizeRole_of_ne (x : PMsg) (h : x.role ≠ ("assistant".data)) :
    normalizeRole x = x := by
  unfold normalizeRole; simp [h]

lemma normalizeRole_idem (x : PMsg) :
    normalizeRole (normalizeRole x) = normalizeRole x :=
  normalizeRole_of_ne _ (normalizeRole_role_ne x)

lemma map_normalizeRole_idem (L : List PMsg) :
    (L.map normalizeRole).map normalizeRole = L.map normalizeRole := by
  induction L with
  | nil => rfl
  | cons a t ih => simp [normalizeRole_idem, ih]

lemma pmUser_role (u : List Char) : (pmUser u).role = ("user".data) := rfl

lemma pmBot_role (m : List Char) : (pmBot m).role = ("bot".data) := rfl

lemma normalizeRole_pmUser (u : List Char) : normalizeRole (pmUser u) = pmUser u :=
  normalizeRole_of_ne _ (by rw [pmUser_role]; decide)

lemma normalizeRole_pmBot (m : List Char) : normalizeRole (pmBot m) = pmBot m :=
  normalizeRole_of_ne _ (by rw [pmBot_role]; decide)

lemma get_session_present (st : SMState) (sid : Nat) (d : SessionData) (now : Nat)
    (hd : st.sessions sid = some d) :
    get_session st sid now =
      (some { d with last_accessed := now },
       { st with sessions := fupd st.sessions sid (some { d with last_accessed := now }) }) := by
  have hexp : is_session_expired
      { st with sessions := fupd st.sessions sid (some { d with last_accessed := now }) }
      sid now = false := by
    unfold is_session_expired
    simp [fupd_same]
  unfold get_session
  rw [hd]
  simp [hexp]

lemma get_messages_present (st : SMState) (sid : Nat) (d : SessionData) (now : Nat)
    (hd : st.sessions sid = some d) :
    get_messages st sid now =
      (some d.msgs,
       { st with
           sessions := fupd st.sessions sid (some { d with last_accessed := now }),
           heap := fupd st.heap d.msgs (some (((st.heap d.msgs).getD []).map normalizeRole)) }) := by
  unfold get_messages
  rw [get_session_present st sid d now hd]

lemma update_session_present (st : SMState) (sid : Nat) (d : SessionData)
    (u m : List Char) (now : Nat) (hd : st.sessions sid = some d) :
    update_session st sid u m now =
      (true,
       { st with
           sessions := fupd st.sessions sid (some { d with last_accessed := now }),
           heap := fupd st.heap d.msgs
             (some (((st.heap d.msgs).getD []) ++ [pmUser u, pmBot m])) }) := by
  unfold update_session
  rw [get_session_present st sid d now hd]
  simp [fupd_fupd_same]

/-! Claim theorems. -/

/-- Concrete store for claim C1: one session (id 0) last accessed at time 0,
with the default 60-minute expiry. -/
def c1State : SMState :=
  { sessions := fun n => if n = 0 then some ⟨0, 0, 0⟩ else none,
    heap := fun n => if n = 0 then some [] else none,
    expiry_minutes := 60 }

/-- Claim C1 (code-bug evidence).  The spec requires `get` at a time
`t > last_accessed + expiry` to return absent and delete the session, but
`get_session` refreshes `last_accessed` to the current time BEFORE running the
expiry check, so the check compares `t > t + expiry` and never fires: at
`t = 1000000 > 0 + 3600` the session (last accessed at 0) is still returned
and the store still contains its id afterward. -/
theorem get_session_never_expires_present_session :
    1000000 > 0 + 60 * 60 ∧
    (get_session c1State 0 1000000).1 = some ⟨0, 0, 1000000⟩ ∧
    ((get_session c1State 0 1000000).2.sessions 0).isSome = true :=
  ⟨by decide, rfl, rfl⟩

/-- Claim C2 (code-bug evidence).  The spec says the new user turn is appended
only to a working copy of the supplied history, but `query_model` appends to
the caller's `messages` list in place: calling it with the empty history `[]`
leaves the caller's list holding the new user turn after the call returns. -/
theorem query_model_mutates_caller_history :
    (query_model ("TestBot".data) ("hi".data) [] true none
        (.ok [("ok".data)])).messagesAfter = [pmUser ("hi".data)] ∧
    [pmUser ("hi".data)] ≠ ([] : List PMsg) :=
  ⟨rfl, by decide⟩

/-- Claim C3 (counterexample).  Extraction is not idempotent: one pass of
`process_claude_response` removes only the first `<thinking>...</thinking>`
segment, so on a text with two segments a second pass still changes the
text. -/
theorem process_claude_response_not_idempotent :
    process_claude_response (process_claude_response
        ("<thinking>a</thinking><thinking>b</thinking>c".data)) ≠
      process_claude_response ("<thinking>a</thinking><thinking>b</thinking>c".data) := by
  decide

/-- Claim C3 (amended).  One pass of `process_claude_response` removes only
the first delimited thinking segment; extraction is idempotent exactly when
the first pass left no complete thinking segment behind (which holds in
particular for every input with at most one segment). -/
theorem process_claude_response_idempotent_when_clean (x : List Char)
    (h : hasThinkingSegment (process_claude_response x) = false) :
    process_claude_response (process_claude_response x) = process_claude_response x :=
  process_eq_self_of_no_segment _ h

/-- Witness for the amended claim C3 at the single-segment input
`"<thinking>r</thinking>Paris"`. -/
theorem process_claude_response_idempotent_when_clean_witness :
    hasThinkingSegment (process_claude_response ("<thinking>r</thinking>Paris".data)) = false ∧
    process_claude_response (process_claude_response ("<thinking>r</thinking>Paris".data)) =
      process_claude_response ("<thinking>r</thinking>Paris".data) :=
  ⟨by decide, process_claude_response_idempotent_when_clean _ (by decide)⟩

/-- Claim C4 (counterexample).  With NO thinking configuration supplied
(`thinking = none`) but a vendor-family bot and compatibility mode on,
`query_model` still strips the thinking segment: post-processing is gated only
on the vendor match and the compatibility flag, not on the thinking
configuration, so the output text differs from the streamed input text. -/
theorem query_model_strips_thinking_despite_absent_config :
    (query_model ("claude-3-sonnet".data) ("p".data) [] true none
        (.ok [("<thinking>a</thinking>b".data)])).result =
      .ok { text := ("b".data), bot := ("claude-3-sonnet".data) } ∧
    ("b".data) ≠ ("<thinking>a</thinking>b".data) :=
  ⟨rfl, by decide⟩

/-- Claim C4 (amended).  The no-op round trip holds in the two remaining
cases: `extract_thinking_from_response` returns the text unchanged whenever
the thinking configuration is absent or disabled, and `query_model` returns
the accumulated stream unchanged whenever the bot is not vendor-classified or
compatibility mode is off. -/
theorem postprocessing_noop_cases :
    (∀ (r : List Char) (t : Option ThinkingDict), thinkingDisabled t = true →
        extract_thinking_from_response r t = .ok { thinking := [], response := r }) ∧
    (∀ (bot prompt : List Char) (msgs : List PMsg) (compat : Bool)
        (t : Option ThinkingDict) (chunks : List (List Char)),
        (is_claude_model bot && compat) = false →
        (query_model bot prompt msgs compat t (.ok chunks)).result =
          .ok { text := concatChunks chunks, bot := bot }) := by
  constructor
  · intro r t h
    match t with
    | none => rfl
    | some c =>
        have hc : c.enabled.getD true = false := by
          simpa [thinkingDisabled] using h
        simp [extract_thinking_from_response, hc]
  · intro bot prompt msgs compat t chunks h
    unfold query_model
    simp [h, processChunks_off _ _ _ h]

/-- Witness for the amended claim C4: absent configuration on plain text, and
a non-vendor bot with a thinking-tagged stream. -/
theorem postprocessing_noop_cases_witness :
    thinkingDisabled none = true ∧
    extract_thinking_from_response ("hello".data) none =
      .ok { thinking := [], response := ("hello".data) } ∧
    (is_claude_model ("gpt-4o".data) && true) = false ∧
    (query_model ("gpt-4o".data) ("p".data) [] true none
        (.ok [("<thinking>a</thinking>b".data)])).result =
      .ok { text := concatChunks [("<thinking>a</thinking>b".data)], bot := ("gpt-4o".data) } :=
  ⟨rfl, postprocessing_noop_cases.1 _ none rfl, by decide,
   postprocessing_noop_cases.2 _ _ _ _ _ _ (by decide)⟩

/-- Claim C5 (counterexample).  A `ValueError` raised during the external call
for the non-vendor bot `gpt-4o` is NOT re-raised unchanged: `query_model`'s
outermost handler wraps it into a `PoeApiError` with a prefixed message. -/
theorem query_model_wraps_foreign_error :
    (query_model ("gpt-4o".data) ("p".data) [] true none
        (.err [] { ty := ("ValueError".data), msg := ("boom".data) })).result =
      .error { ty := ("PoeApiError".data), msg := ("Error querying Poe model: boom".data) } ∧
    ("PoeApiError".data) ≠ ("ValueError".data) :=
  ⟨rfl, by decide⟩

/-- Claim C5 (amended).  For a bot outside the vendor family (or with
compatibility mode off), an error raised during the external call propagates
out of the streaming handler unchanged but is then wrapped by the outermost
handler into `PoeApiError` whose message prefixes the original `str(e)` with
`"Error querying Poe model: "` (resp. `"Error querying Poe model with file: "`
in the file variant). -/
theorem non_vendor_errors_wrapped_as_poe_api_error :
    (∀ (bot prompt : List Char) (msgs : List PMsg) (compat : Bool)
        (t : Option ThinkingDict) (chunks : List (List Char)) (e : PyError),
        (is_claude_model bot && compat) = false →
        (query_model bot prompt msgs compat t (.err chunks e)).result =
          .error { ty := ("PoeApiError".data),
                   msg := ("Error querying Poe model: ".data) ++ e.msg }) ∧
    (∀ (bot prompt path : List Char) (msgs : List PMsg) (compat : Bool)
        (t : Option ThinkingDict) (fs : List Char → Option FileData) (fd : FileData)
        (chunks : List (List Char)) (e : PyError),
        fs path = some fd →
        (is_claude_model bot && compat) = false →
        (query_model_with_file bot prompt path msgs compat t fs (.err chunks e)).result =
          .error { ty := ("PoeApiError".data),
                   msg := ("Error querying Poe model with file: ".data) ++ e.msg }) := by
  constructor
  · intro bot prompt msgs compat t chunks e h
    unfold query_model
    simp [h]
  · intro bot prompt path msgs compat t fs fd chunks e hfs h
    unfold query_model_with_file
    rw [hfs]
    simp [h]

/-- Concrete oversized file for claims C5/C9: 20 MB, above the default 10 MB
bound. -/
def c9File : FileData :=
  { decoded := some ("data".data), basename := ("big.txt".data), size_bytes := 20971520 }

/-- Concrete filesystem for claims C5/C9 holding only `big.txt`. -/
def c9Fs : List Char → Option FileData :=
  fun p => if p = ("big.txt".data) then some c9File else none

lemma c9Fs_big : c9Fs ("big.txt".data) = some c9File := by
  unfold c9Fs; simp

/-- Witness for the amended claim C5 at concrete non-vendor inputs. -/
theorem non_vendor_errors_wrapped_as_poe_api_error_witness :
    (is_claude_model ("gpt-4o".data) && true) = false ∧
    c9Fs ("big.txt".data) = some c9File ∧
    (query_model ("gpt-4o".data) ("p".data) [] true none
        (.err [] { ty := ("ValueError".data), msg := ("x".data) })).result =
      .error { ty := ("PoeApiError".data),
               msg := ("Error querying Poe model: ".data) ++ ("x".data) } ∧
    (query_model_with_file ("gpt-4o".data) ("p".data) ("big.txt".data) [] true none c9Fs
        (.err [] { ty := ("ValueError".data), msg := ("x".data) })).result =
      .error { ty := ("PoeApiError".data),
               msg := ("Error querying Poe model with file: ".data) ++ ("x".data) } :=
  ⟨by decide, c9Fs_big,
   non_vendor_errors_wrapped_as_poe_api_error.1 _ _ _ _ _ _ _ (by decide),
   non_vendor_errors_wrapped_as_poe_api_error.2 _ _ _ _ _ _ _ c9File _ _ c9Fs_big (by decide)⟩

/-- Claim C6.  For a session present in the store, a successful
`update_session(id, u, m)` extends the history returned by `get_messages` by
exactly the pair user-turn `u` followed by model-role turn `m`: the value read
after the update equals the value read before with the two turns appended, so
its length grew by exactly 2.  (The non-expiry hypothesis mirrors the claim;
`get_session` touches the session before checking expiry, so presence alone
already suffices.) -/
theorem update_session_appends_user_bot_pair
    (st : SMState) (session_id : Nat) (d : SessionData) (u m : List Char)
    (t0 t1 t2 : Nat)
    (hd : st.sessions session_id = some d)
    (hne : is_session_expired st session_id t0 = false) :
    let g0 := get_messages st session_id t0
    let before := readMessages g0.2 g0.1
    let up := update_session g0.2 session_id u m t1
    let g2 := get_messages up.2 session_id t2
    let after := readMessages g2.2 g2.1
    up.1 = true ∧ after = before ++ [pmUser u, pmBot m] ∧
      after.length = before.length + 2 := by
  simp only
  simp [get_messages, get_session, update_session, is_session_expired,
        readMessages, fupd, hd, map_normalizeRole_idem, normalizeRole_pmUser,
        normalizeRole_pmBot]
  intro a _
  exact normalizeRole_idem a

/-- Witness for claim C6: a store holding one session (id 0) whose history
already has one exchange. -/
def c6State : SMState :=
  { sessions := fun n => if n = 0 then some ⟨0, 0, 0⟩ else none,
    heap := fun n => if n = 0 then some [pmUser ("hi".data), pmBot ("hello".data)] else none,
    expiry_minutes := 60 }

/-- Witness for claim C6 at the concrete store `c6State`. -/
theorem update_session_appends_user_bot_pair_witness :
    c6State.sessions 0 = some ⟨0, 0, 0⟩ ∧
    is_session_expired c6State 0 5 = false ∧
    (let g0 := get_messages c6State 0 5
     let before := readMessages g0.2 g0.1
     let up := update_session g0.2 0 ("u2".data) ("m2".data) 6
     let g2 := get_messages up.2 0 7
     let after := readMessages g2.2 g2.1
     up.1 = true ∧ after = before ++ [pmUser ("u2".data), pmBot ("m2".data)] ∧
       after.length = before.length + 2) :=
  ⟨rfl, by decide,
   update_session_appends_user_bot_pair c6State 0 ⟨0, 0, 0⟩ ("u2".data) ("m2".data)
     5 6 7 rfl (by decide)⟩

/-- Claim C7.  When the primary error matches a thinking-protocol keyword, the
model is vendor-classified, and the supplied fallback callable itself raises,
`handle_claude_error` returns the structured dictionary with
`fallback_used = true` and `fallback_failed = true` whose message carries both
the original (lowered) failure text and the fallback failure text; being a
total function of the fallback's outcome, it never raises (the Python body
catches the fallback exception and every path returns a dictionary). -/
theorem handle_claude_error_fallback_terminal
    (e fe : PyError) (model_name : List Char)
    (hth : isThinkingError e = true)
    (hcl : is_claude_model_v2 model_name = true) :
    handle_claude_error e (some (.error fe)) model_name =
      { text := [], error := true,
        error_message := ("Thinking protocol error: ".data) ++ lower e.msg ++
          (". Fallback also failed: ".data) ++ fe.msg,
        fallback_used := true, fallback_failed := some true } := by
  unfold handle_claude_error
  simp [hth, hcl]

/-- Witness for claim C7 at a concrete thinking-protocol error with a raising
fallback. -/
theorem handle_claude_error_fallback_terminal_witness :
    isThinkingError { ty := ("Exception".data), msg := ("Thinking protocol rejected".data) } = true ∧
    is_claude_model_v2 ("claude-3-sonnet".data) = true ∧
    handle_claude_error { ty := ("Exception".data), msg := ("Thinking protocol rejected".data) }
        (some (.error { ty := ("RuntimeError".data), msg := ("fallback boom".data) }))
        ("claude-3-sonnet".data) =
      { text := [], error := true,
        error_message := ("Thinking protocol error: ".data) ++
          lower ("Thinking protocol rejected".data) ++
          (". Fallback also failed: ".data) ++ ("fallback boom".data),
        fallback_used := true, fallback_failed := some true } :=
  ⟨by decide, by decide,
   handle_claude_error_fallback_terminal _ _ _ (by decide) (by decide)⟩

/-- Claim C8 (counterexample).  The `claude_compat_v2` classifier is NOT the
spec's either-direction match: for the bot id `"clau"` the reverse direction
holds (the bot name is contained in the registry fragment `"claude"`), so the
spec rule classifies it as a match, but `is_claude_model_v2` returns false. -/
theorem is_claude_model_v2_not_either_direction :
    spec_either_direction_match CLAUDE_MODELS ("clau".data) = true ∧
    is_claude_model_v2 ("clau".data) = false :=
  ⟨rfl, rfl⟩

/-- Claim C8 (amended).  The orchestrator's classifier
(`poe_client/claude_compat.is_claude_model`) is exactly the spec's
case-insensitive either-direction match over its registry, while the
`claude_compat_v2` classifier tests only whether a registry fragment is
contained in the bot name; both classify `"claude-3-sonnet"` as a match and
`"gpt-4o"` as not. -/
theorem claude_classification_registry_behavior :
    (∀ name, is_claude_model name = spec_either_direction_match CLAUDE_MODELS_V1 name) ∧
    is_claude_model ("claude-3-sonnet".data) = true ∧
    is_claude_model ("gpt-4o".data) = false ∧
    is_claude_model_v2 ("claude-3-sonnet".data) = true ∧
    is_claude_model_v2 ("gpt-4o".data) = false :=
  ⟨fun _ => rfl, rfl, rfl, rfl, rfl⟩

/-- Claim C9 (counterexample).  For an existing attachment whose size (20 MB)
exceeds the configured 10 MB maximum, `query_model_with_file` raises nothing
and the external call IS attempted: the function performs no size check at
all. -/
theorem query_model_with_file_ignores_size_limit :
    c9File.size_bytes > 10 * 1024 * 1024 ∧
    (query_model_with_file ("gpt-4o".data) ("p".data) ("big.txt".data) [] true none c9Fs
        (.ok [("r".data)])).externalCalled = true ∧
    (query_model_with_file ("gpt-4o".data) ("p".data) ("big.txt".data) [] true none c9Fs
        (.ok [("r".data)])).result =
      .ok { text := ("r".data), bot := ("gpt-4o".data) } :=
  ⟨by decide, rfl, rfl⟩

/-- Claim C9 (amended).  A nonexistent attachment path makes
`query_model_with_file` raise `FileHandlingError` before any external call
(and before the user turn is appended); the size bound, by contrast, is only
enforced by the separate helper `validate_file` — invoked by the HTTP layer,
not by the query — and an oversize file there raises `ValueError`, not
`FileHandlingError`. -/
theorem missing_file_fails_before_external_call :
    (∀ (bot prompt path : List Char) (msgs : List PMsg) (compat : Bool)
        (t : Option ThinkingDict) (fs : List Char → Option FileData)
        (outcome : StreamOutcome),
        fs path = none →
        query_model_with_file bot prompt path msgs compat t fs outcome =
          { result := .error { ty := ("FileHandlingError".data),
                               msg := ("File not found: ".data) ++ path },
            messagesAfter := msgs, externalCalled := false }) ∧
    (∀ (fs : List Char → Option FileData) (path : List Char) (max_size_mb : Nat)
        (fd : FileData),
        fs path = some fd → fd.size_bytes > max_size_mb * 1024 * 1024 →
        validate_file fs path max_size_mb =
          .error { ty := ("ValueError".data), msg := ("文件过大".data) }) := by
  constructor
  · intro bot prompt path msgs compat t fs outcome h
    unfold query_model_with_file
    rw [h]
  · intro fs path max_size_mb fd hfs hsz
    unfold validate_file
    rw [hfs]
    simp [hsz]

/-- Witness for the amended claim C9: an empty filesystem for the existence
check, and the oversized `big.txt` for the size check. -/
theorem missing_file_fails_before_external_call_witness :
    ((fun _ => none) : List Char → Option FileData) ("nope.txt".data) = none ∧
    c9Fs ("big.txt".data) = some c9File ∧
    c9File.size_bytes > 10 * 1024 * 1024 ∧
    query_model_with_file ("gpt-4o".data) ("p".data) ("nope.txt".data) [] true none
        (fun _ => none) (.ok []) =
      { result := .error { ty := ("FileHandlingError".data),
                           msg := ("File not found: ".data) ++ ("nope.txt".data) },
        messagesAfter := [], externalCalled := false } ∧
    validate_file c9Fs ("big.txt".data) 10 =
      .error { ty := ("ValueError".data), msg := ("文件过大".data) } :=
  ⟨rfl, c9Fs_big, by decide,
   missing_file_fails_before_external_call.1 _ _ _ _ _ _ _ _ rfl,
   missing_file_fails_before_external_call.2 _ _ _ c9File c9Fs_big (by decide)⟩

/-- Claim C10.  For a present session, `get_messages` returns the session's
own messages list object (the reference stored for the id, not a copy), the
normalisation was performed in place so no stored turn carries the legacy
`"assistant"` role afterward, and overwriting the returned list object is
visible in the store's own history for that id. -/
theorem get_messages_returns_store_list_and_normalizes
    (st : SMState) (session_id : Nat) (d : SessionData) (now : Nat)
    (hd : st.sessions session_id = some d) :
    let g := get_messages st session_id now
    g.1 = some d.msgs ∧
    readMessages g.2 g.1 = storedMessages g.2 session_id ∧
    (∀ x ∈ storedMessages g.2 session_id, x.role ≠ ("assistant".data)) ∧
    (∀ newMsgs : List PMsg,
        storedMessages { g.2 with heap := fupd g.2.heap d.msgs (some newMsgs) }
          session_id = newMsgs) := by
  simp only
  rw [get_messages_present st session_id d now hd]
  refine ⟨rfl, ?_, ?_, ?_⟩
  · simp [readMessages, storedMessages, fupd_same]
  · simp only [storedMessages, fupd_same]
    intro x hx
    rcases List.mem_map.mp (by simpa using hx) with ⟨y, _, rfl⟩
    exact normalizeRole_role_ne y
  · intro newMsgs
    simp [storedMessages, fupd_same, fupd_fupd_same]

/-- Witness for claim C10 at a concrete store whose history still holds a
legacy `"assistant"` turn. -/
def c10State : SMState :=
  { sessions := fun n => if n = 0 then some ⟨0, 0, 0⟩ else none,
    heap := fun n =>
      if n = 0 then some [{ role := ("assistant".data), content := ("old".data) }] else none,
    expiry_minutes := 60 }

/-- Witness for claim C10 at the concrete store `c10State`. -/
theorem get_messages_returns_store_list_and_normalizes_witness :
    c10State.sessions 0 = some ⟨0, 0, 0⟩ ∧
    (let g := get_messages c10State 0 5
     g.1 = some (0 : Nat) ∧
     readMessages g.2 g.1 = storedMessages g.2 0 ∧
     (∀ x ∈ storedMessages g.2 0, x.role ≠ ("assistant".data)) ∧
     (∀ newMsgs : List PMsg,
        storedMessages { g.2 with heap := fupd g.2.heap 0 (some newMsgs) } 0 = newMsgs)) :=
  ⟨rfl, get_messages_returns_store_list_and_normalizes c10State 0 ⟨0, 0, 0⟩ 5 rfl⟩
